import Mathlib

/-!
# Verification of the TUI Blender build fetcher/launcher

Shallow embedding of the core logic of the `blender-launcher` package:

* `utils/download.py` — progress-log scanning, download-success detection,
  the multi-build download/extract pipeline, and sidecar metadata creation;
* `utils/local_builds.py` — local build-directory scanning and deletion;
* `models/build_info.py` — the `LocalBuildInfo` and `BlenderBuild` dataclasses;
* `ui/tui.py` — build-list reconciliation (`_get_combined_build_list`), the
  sort keys (`_SORT_KEYS`), update detection (`_has_update_available`), the
  directory-matching rule (`_find_build_directory`), and the progress watcher
  (`_download_with_progress_tracking`).

Python strings are modelled as `List Char` (`Str`), so that every operation
is structurally recursive and kernel-evaluable.  Filesystem and subprocess
effects are modelled by explicit state values and outcome oracles passed in
as data.  Python exceptions are modelled with `Except PyErr`.

Two Python dataclass facts drive several results below and are modelled
explicitly rather than papered over:

* `LocalBuildInfo` declares exactly the fields
  `version, time, branch, risk_id, build_date, download_date, directory_size`
  (no `hash` field), yet `local_builds.py` passes `hash=` at both of its
  construction sites — a `TypeError` at runtime;
* `BlenderBuild` declares exactly the fields
  `version, branch, risk_id, file_size, file_mtime, file_name, url, platform,
  architecture` plus the properties `size_mb`, `mtime_formatted`,
  `build_time` (no `hash` attribute), yet `download.py` and `ui/tui.py`
  read `build.hash` — an `AttributeError` at runtime.
-/

/-- Python strings, modelled as character lists so everything reduces in the
kernel. -/
abbrev Str := List Char

/-- Convert a Lean string literal to the model type. -/
def toStr (s : String) : Str := s.toList

/-- Python `needle_prefix` test: `haystack.startswith(needle)` /
`needle.isPrefixOf`. -/
def isPre : Str → Str → Bool
  | [], _ => true
  | _ :: _, [] => false
  | a :: as, b :: bs => a == b && isPre as bs

/-- Python `needle in haystack` substring containment. -/
def containsSub (n : Str) : Str → Bool
  | [] => n.isEmpty
  | c :: cs => isPre n (c :: cs) || containsSub n cs

/-- Python `s.split(sep)` for a one-character separator (the only kind the
source uses: `"-"`, `"+"`, `"."`, `"_"`).  `"".split(c) == [""]` and empty
segments are kept, as in Python. -/
def splitOnChar (c : Char) : Str → List Str
  | [] => [[]]
  | x :: xs =>
    let r := splitOnChar c xs
    if x == c then [] :: r
    else
      match r with
      | [] => [[x]]
      | y :: ys => (x :: y) :: ys

/-- Python string `<` (lexicographic by code point). -/
def strLt : Str → Str → Bool
  | [], [] => false
  | [], _ :: _ => true
  | _ :: _, [] => false
  | a :: as, b :: bs => if a < b then true else if b < a then false else strLt as bs

/-- Python `s.lower()`.  `Char.toLower` only lowers ASCII letters; the source
only ever lowercases ASCII log text and branch names, so this agrees with
Python on all inputs that occur. -/
def toLowerStr (s : Str) : Str := s.map Char.toLower

/-- Numeric value of a digit string (`float(...)` / `int(...)` of an
all-digit match; the matches produced by the `(\d+)%` scan are all-digit). -/
def natOfDigits (s : Str) : Nat := s.foldl (fun n c => 10 * n + (c.toNat - 48)) 0

/-- Python `int(segment)` as used on version segments.  Python's `int` also
accepts surrounding whitespace, a sign and digit-group underscores; version
segments in this system are plain digit runs, and anything else raises
`ValueError`, modelled here as `none`. -/
def pyIntOfStr (s : Str) : Option Int :=
  if !s.isEmpty && s.all Char.isDigit then some (natOfDigits s : Int) else none

/-- Python exceptions that the modelled code can raise. -/
inductive PyErr where
  /-- `TypeError: __init__() got an unexpected keyword argument ...` -/
  | typeError (kwarg : Str)
  /-- `AttributeError: ... object has no attribute ...` -/
  | attributeError (attr : Str)
  /-- `ValueError` (e.g. `int()` on a non-numeric version segment). -/
  | valueError
  deriving DecidableEq, Repr

deriving instance DecidableEq for Except

/-! ## `utils/download.py` — progress-log scanning

`_get_progress_and_speed_from_log` reads the whole log and applies
`re.findall(r"(\d+)%", content)`: the matches are exactly the maximal digit
runs immediately followed by `'%'`, scanned left to right.  The speed
component of its result is a free-text token that no property below depends
on (only the percentage is ever compared), so only the percentage half of
the returned pair is modelled. -/

/-- All matches of `(\d+)%` in order: `acc` holds the current digit run,
reversed. -/
def percentScanAux (acc : Str) : Str → List Nat
  | [] => []
  | c :: cs =>
    if c.isDigit then percentScanAux (c :: acc) cs
    else if c == '%' && !acc.isEmpty then
      natOfDigits acc.reverse :: percentScanAux [] cs
    else percentScanAux [] cs

/-- `re.findall(r"(\d+)%", content)`, each match taken as its numeric value. -/
def percentMatches (content : Str) : List Nat := percentScanAux [] content

/-- Percentage half of `_get_progress_and_speed_from_log` applied to the log
content: the last `(\d+)%` match if any; otherwise `0` when a
download-starting marker is present; otherwise `None`. -/
def progressFromLog (content : Str) : Option Nat :=
  match (percentMatches content).getLast? with
  | some p => some p
  | none =>
    if containsSub (toStr "Starting download") content ||
        containsSub (toStr "Downloading") content then some 0
    else none

/-- `_check_download_success` applied to the log content: no `"ERROR"`, no
case-insensitive `"failed"`, and a last reported percentage strictly greater
than 99. -/
def checkDownloadSuccess (content : Str) : Bool :=
  if !containsSub (toStr "ERROR") content &&
      !containsSub (toStr "failed") (toLowerStr content) then
    match progressFromLog content with
    | some p => decide (99 < p)
    | none => false
  else false

/-! ## `ui/tui.py` — the per-task progress watcher

One iteration of the polling loop in `_download_with_progress_tracking`,
restricted to a single task.  The loop skips tasks already in
`completed_builds`; otherwise, when the log file exists and
`_get_progress_and_speed_from_log` returns a result, it stores the
percentage into `state.download_progress[version]` unconditionally (there
is no clamping against previously published values), and adds the task to
`completed_builds` when the percentage reaches 100. -/

/-- Watcher-visible state for one task: the last published percentage (if
any) and whether the task entered `completed_builds`. -/
structure WatchState where
  published : Option Nat
  completed : Bool
  deriving DecidableEq, Repr

/-- Watcher state before any poll. -/
def watchInit : WatchState := ⟨none, false⟩

/-- One watcher poll for one task.  `log` is `none` when the log file does
not exist yet. -/
def pollStep (s : WatchState) (log : Option Str) : WatchState :=
  if s.completed then s
  else
    match log with
    | none => s
    | some content =>
      match progressFromLog content with
      | none => s
      | some p => ⟨some p, decide (100 ≤ p)⟩

/-! ## `models/build_info.py` — the two dataclasses -/

/-- The `LocalBuildInfo` dataclass, with exactly the fields its class body
declares.  Note: there is no `hash` field. -/
structure LocalBuildInfo where
  version : Str
  time : Option Str
  branch : Option Str
  risk_id : Option Str
  build_date : Option Str
  download_date : Option Str
  /-- Size of the build directory in bytes. -/
  directory_size : Option Int
  deriving DecidableEq, Repr

/-- `LocalBuildInfo.size_mb`: `directory_size / (1024 * 1024)` when present.
Python float division is modelled as exact rational division; no claim
depends on float rounding. -/
def LocalBuildInfo.size_mb (b : LocalBuildInfo) : Option Rat :=
  b.directory_size.map (fun n => (n : Rat) / (1024 * 1024))

/-- The keyword parameters accepted by `LocalBuildInfo.__init__`, i.e. the
declared dataclass fields, in declaration order. -/
def localBuildInfoParams : List Str :=
  [toStr "version", toStr "time", toStr "branch", toStr "risk_id",
   toStr "build_date", toStr "download_date", toStr "directory_size"]

/-- A Python call `LocalBuildInfo(k₁=..., ..., kₙ=...)`: raises `TypeError`
on the first keyword that is not a declared field, otherwise returns the
constructed value `v` (built by the caller from the keyword values that do
correspond to declared fields). -/
def callLocalBuildInfo (kwargs : List Str) (v : LocalBuildInfo) :
    Except PyErr LocalBuildInfo :=
  match kwargs.find? (fun k => !localBuildInfoParams.contains k) with
  | some k => .error (.typeError k)
  | none => .ok v

/-- The `BlenderBuild` dataclass.  `build_time` and `mtime_formatted` are
`@property`s derived from `file_mtime` by `strftime` (`"%Y%m%d_%H%M"` and
`"%Y-%m-%d %H:%M"`); calendar formatting is kept abstract, so the model
stores their rendered values as fields — every claim uses them only as
opaque tokens compared for equality/emptiness.  Note: there is no `hash`
field and no `hash` property. -/
structure BlenderBuild where
  version : Str
  branch : Str
  risk_id : Str
  file_size : Int
  file_mtime : Int
  file_name : Str
  url : Str
  platform : Str
  architecture : Str
  /-- Rendering of `datetime.fromtimestamp(file_mtime).strftime("%Y%m%d_%H%M")`. -/
  build_time : Str
  /-- Rendering of `datetime.fromtimestamp(file_mtime).strftime("%Y-%m-%d %H:%M")`. -/
  mtime_formatted : Str
  deriving DecidableEq, Repr

/-- `BlenderBuild.size_mb`: `file_size / (1024 * 1024)` (exact rational in
place of a Python float). -/
def BlenderBuild.size_mb (b : BlenderBuild) : Rat :=
  (b.file_size : Rat) / (1024 * 1024)

/-- Every attribute name resolvable on a `BlenderBuild` instance: the
dataclass fields, the three properties, and the classmethod. -/
def blenderBuildAttrNames : List Str :=
  [toStr "version", toStr "branch", toStr "risk_id", toStr "file_size",
   toStr "file_mtime", toStr "file_name", toStr "url", toStr "platform",
   toStr "architecture", toStr "size_mb", toStr "mtime_formatted",
   toStr "build_time", toStr "from_dict"]

/-- The Python expression `build.hash`: attribute lookup on a
`BlenderBuild`.  Since `"hash"` is not among the resolvable attribute
names, this raises `AttributeError`; the `.ok` branch is unreachable and
its payload value is immaterial. -/
def BlenderBuild.getHash (_b : BlenderBuild) : Except PyErr Str :=
  if blenderBuildAttrNames.contains (toStr "hash") then .ok []
  else .error (.attributeError (toStr "hash"))

/-! ## `utils/local_builds.py` — scanning and deleting local builds

The download directory is a value: a root-exists flag plus the directory
entries.  Per entry the model records the name, whether it is a directory,
the outcome of reading+parsing its `version.json` (absent file, invalid
JSON, or parsed fields), and the outcome of `_calculate_directory_size`
(`none` models the `except Exception` path). -/

/-- Parsed fields of a `version.json` that loaded as valid JSON.  Each field
is the value of `build_info.get(key)`: `none` for an absent (or null) key.
`datetime.fromtimestamp` on an insane stored `file_mtime` could itself
raise; no claim exercises that and stored mtimes are ordinary epochs. -/
structure VersionJson where
  version : Option Str
  build_time : Option Str
  branch : Option Str
  risk_id : Option Str
  mtime_formatted : Option Str
  file_mtime : Option Int
  download_date : Option Str
  directory_size : Option Int
  hash : Option Str
  deriving DecidableEq, Repr

/-- Outcome of opening and `json.load`-ing a present `version.json`. -/
inductive JsonOutcome where
  | invalid
  | valid (j : VersionJson)
  deriving DecidableEq, Repr

/-- One entry of the download directory. -/
structure BuildDirEnt where
  name : Str
  isDir : Bool
  /-- `none` when no `version.json` exists in the directory. -/
  versionJson : Option JsonOutcome
  /-- Result of `_calculate_directory_size`; `none` models a raise. -/
  sizeCalc : Option Int
  deriving DecidableEq, Repr

/-- The download directory (`AppConfig.DOWNLOAD_PATH`). -/
structure DownloadFs where
  rootExists : Bool
  entries : List BuildDirEnt
  deriving DecidableEq, Repr

/-- Python truthiness of an optional string: `None` and `""` are falsy. -/
def pyTruthyOptStr : Option Str → Bool
  | none => false
  | some s => !s.isEmpty

/-- `version.split("+")[0]` guarded by `if "+" in version` — equal to
`split("+")[0]` unconditionally. -/
def stripPlusPart (v : Str) : Str := ((splitOnChar '+' v).headD v)

/-- The version component parsed from a directory name:
`dir_name.split("-")[1]`, with any `+hash` suffix stripped. -/
def dirVersionComponent (name : Str) : Str :=
  stripPlusPart (((splitOnChar '-' name).drop 1).headD [])

/-- Best-effort hash extraction in the directory-name fallback of
`_extract_build_info_from_directory`: first `+`-split part containing a
`.`, its prefix before the first `.` (the inner re-split is unreachable
since that prefix never contains `.`), last `-`-split piece of that. -/
def hashFromName (name : Str) : Option Str :=
  ((splitOnChar '+' name).find? (fun part => part.contains '.')).map fun part =>
    let hc := (splitOnChar '.' part).headD []
    let hc := if hc.contains '.' then (splitOnChar '.' hc).getLastD [] else hc
    (splitOnChar '-' hc).getLastD []

/-- The build-time token parsed from a directory name: the last two
`_`-separated segments joined by `_`, provided the first of the two is
fully numeric. -/
def timeTokenFromName (name : Str) : Option Str :=
  if name.contains '_' then
    let segs := splitOnChar '_' name
    let tp := segs.drop (segs.length - 2)
    if tp.length == 2 && !(tp.headD []).isEmpty && (tp.headD []).all Char.isDigit then
      some (List.intercalate (toStr "_") tp)
    else none
  else none

/-- The directory-name fallback branch of
`_extract_build_info_from_directory` (after `version.json` was absent,
invalid, or lacked a truthy version).  The `LocalBuildInfo(...)` call at
the end passes `hash=`, which is not a declared field, so the branch
raises `TypeError` whenever `"blender-"` occurs in the name and the name
splits into at least two `-`-parts; otherwise it returns `None`.
`fmt` models `datetime.fromtimestamp(·).strftime("%Y-%m-%d %H:%M")`
(used only by the `version.json` branch, threaded for uniformity). -/
def fallbackParse (e : BuildDirEnt) : Except PyErr (Option LocalBuildInfo) :=
  if containsSub (toStr "blender-") e.name then
    let parts := splitOnChar '-' e.name
    if parts.length ≥ 2 then
      let version := dirVersionComponent e.name
      let build_time := timeTokenFromName e.name
      let directory_size := e.sizeCalc
      let _hash_value := if e.name.contains '+' then hashFromName e.name else none
      (callLocalBuildInfo
        [toStr "version", toStr "time", toStr "directory_size", toStr "hash"]
        ⟨version, build_time, none, none, none, none, directory_size⟩).map some
    else .ok none
  else .ok none

/-- `_extract_build_info_from_directory`.  When `version.json` parses and
holds a truthy version, the code builds a `LocalBuildInfo` with keyword
arguments including `hash=` — a `TypeError` that the surrounding
`except (json.JSONDecodeError, IOError, KeyError)` does **not** catch, so
it propagates.  A JSON decode error, or a falsy/absent version, falls
through to directory-name parsing. -/
def extractBuildInfo (fmt : Int → Str) (e : BuildDirEnt) :
    Except PyErr (Option LocalBuildInfo) :=
  match e.versionJson with
  | some (.valid j) =>
    if pyTruthyOptStr j.version then
      (callLocalBuildInfo
        [toStr "version", toStr "time", toStr "branch", toStr "risk_id",
         toStr "build_date", toStr "download_date", toStr "directory_size",
         toStr "hash"]
        ⟨j.version.getD [], j.build_time, j.branch, j.risk_id,
         some (j.mtime_formatted.getD (fmt (j.file_mtime.getD 0))),
         j.download_date, j.directory_size⟩).map some
    else fallbackParse e
  | some .invalid => fallbackParse e
  | none => fallbackParse e

/-- Conflict rule of `get_local_builds`: keep the existing entry unless the
new one has a lexicographically greater (truthy) time token. -/
def updateLocalBuilds (acc : List (Str × LocalBuildInfo)) (bi : LocalBuildInfo) :
    List (Str × LocalBuildInfo) :=
  match acc.find? (fun p => p.1 == bi.version) with
  | none => acc ++ [(bi.version, bi)]
  | some old =>
    if (match bi.time, old.2.time with
        | some t, some u => !t.isEmpty && !u.isEmpty && strLt u t
        | _, _ => false) then
      acc.map (fun p => if p.1 == bi.version then (p.1, bi) else p)
    else acc

/-- Loop body of `get_local_builds` over the `blender-*` glob. -/
def getLocalBuildsGo (fmt : Int → Str) :
    List BuildDirEnt → List (Str × LocalBuildInfo) →
    Except PyErr (List (Str × LocalBuildInfo))
  | [], acc => .ok acc
  | e :: es, acc =>
    if isPre (toStr "blender-") e.name && e.isDir then
      match extractBuildInfo fmt e with
      | .error err => .error err
      | .ok none => getLocalBuildsGo fmt es acc
      | .ok (some bi) =>
        if !bi.version.isEmpty then getLocalBuildsGo fmt es (updateLocalBuilds acc bi)
        else getLocalBuildsGo fmt es acc
    else getLocalBuildsGo fmt es acc

/-- `get_local_builds`: scan the download directory and return the mapping
from version to `LocalBuildInfo` (as an insertion-ordered association
list, like a Python dict).  An uncaught exception from a directory's
extraction propagates out of the whole scan. -/
def getLocalBuilds (fmt : Int → Str) (fs : DownloadFs) :
    Except PyErr (List (Str × LocalBuildInfo)) :=
  if !fs.rootExists then .ok []
  else getLocalBuildsGo fmt fs.entries []

/-- The per-directory version-matching rule shared by `delete_local_build`
and `_find_build_directory`: accept when `"blender-" + version` is a string
prefix of the name, or else when the parsed version component of the name
equals the version. -/
def matchesVersionDir (name version : Str) : Bool :=
  if isPre (toStr "blender-" ++ version) name then true
  else if name.contains '-' && (splitOnChar '-' name).length > 1 then
    dirVersionComponent name == version
  else false

/-- The filter applied by `delete_local_build` over the `blender-*` glob. -/
def matchesDelete (version : Str) (e : BuildDirEnt) : Bool :=
  isPre (toStr "blender-") e.name && e.isDir && matchesVersionDir e.name version

/-- The directories `delete_local_build version` would target. -/
def matchedBuildDirs (fs : DownloadFs) (version : Str) : List BuildDirEnt :=
  if fs.rootExists then fs.entries.filter (matchesDelete version) else []

/-- `delete_local_build`.  `removeFails d = true` models
`shutil.rmtree(d)` raising `PermissionError`/`OSError` (the entry then
stays on disk).  Returns the success flag and the resulting directory
state. -/
def deleteLocalBuild (fs : DownloadFs) (removeFails : Str → Bool)
    (version : Str) : Bool × DownloadFs :=
  if !fs.rootExists then (false, fs)
  else
    let matched := matchedBuildDirs fs version
    if matched.isEmpty then (false, fs)
    else
      (matched.all (fun e => !removeFails e.name),
       ⟨fs.rootExists,
        fs.entries.filter (fun e => !(matchesDelete version e && !removeFails e.name))⟩)

/-- `_find_build_directory` (in `ui/tui.py`): first `blender-*` directory
entry matching the version rule. -/
def findBuildDirectory (fs : DownloadFs) (version : Str) : Option BuildDirEnt :=
  fs.entries.find? (fun e =>
    isPre (toStr "blender-") e.name && e.isDir && matchesVersionDir e.name version)


/-! ## `utils/download.py` — sidecar metadata and the batch pipeline -/

/-- The `version.json` sidecar contents written by `_create_version_info`. -/
structure Sidecar where
  version : Str
  branch : Str
  risk_id : Str
  file_size : Int
  file_mtime : Int
  file_name : Str
  platform : Str
  architecture : Str
  build_time : Str
  mtime_formatted : Str
  download_date : Str
  directory_size : Int
  hash : Str
  deriving DecidableEq, Repr

/-- External facts `_create_version_info` consults about the extracted
directory: `extract_path.exists() and extract_path.is_dir()`, whether the
`blender` executable exists inside it, and the outcome of
`_calculate_directory_size` (`none` models a raise). -/
structure CreateCtx where
  dirOk : Bool
  hasExe : Bool
  sizeCalc : Option Int
  deriving DecidableEq, Repr

/-- `_create_version_info`: verify the directory and the `blender`
executable, then build the info dict — whose last entry evaluates
`build.hash`, raising `AttributeError`, which the enclosing
`except Exception` swallows after removing any partially written file.  The
result is the sidecar written, or `none` when nothing is written.  `now`
models `datetime.now().strftime("%Y-%m-%d %H:%M:%S")`. -/
def createVersionInfo (b : BlenderBuild) (ctx : CreateCtx) (now : Str) :
    Option Sidecar :=
  if !ctx.dirOk then none
  else if !ctx.hasExe then none
  else
    match ctx.sizeCalc with
    | none => none
    | some sz =>
      match b.getHash with
      | .error _ => none
      | .ok h =>
        some ⟨b.version, b.branch, b.risk_id, b.file_size, b.file_mtime,
              b.file_name, b.platform, b.architecture, b.build_time,
              b.mtime_formatted, now, sz, h⟩

/-- External-world oracles for one run of `download_multiple_builds`:
the pre-flight state of the download directory, the confirmation prompt's
answer, the per-version log file path (`log_file_paths.get(version)`; a
missing or `None` dict yields `none`), the post-join state and content of
each log file by path, per-version outcomes of `tar` and of the
extracted-directory verification, per-directory `rm -rf` failures, the
per-version facts `_create_version_info` consults, and the current time
string.  All are fixed data: every fetch thread only appends to its own
log, and all threads are joined before any result is read. -/
structure DlEnv where
  fs : DownloadFs
  confirmAnswer : Bool
  logPathOf : Str → Option Str
  logExists : Str → Bool
  logContent : Str → Str
  tarOk : Str → Bool
  extractDirOk : Str → Bool
  removeFails : Str → Bool
  hasExe : Str → Bool
  sizeCalc : Str → Option Int
  now : Str

/-- Observable outcome of `download_multiple_builds`: the returned boolean,
`completed_versions`, the pre-existing build directories actually removed,
the leftover archive files removed pre-flight, and the sidecars written. -/
structure DlResult where
  ret : Bool
  completed : List Str
  removedDirs : List Str
  removedArchives : List Str
  sidecars : List (Str × Sidecar)
  deriving DecidableEq, Repr

/-- `download_dir.glob(f"blender-{version}*")` restricted to directories,
as collected for `versions_to_remove` (and in `download_build`).  Versions
contain no glob metacharacters, so the pattern is a literal prefix. -/
def existingDirsFor (fs : DownloadFs) (version : Str) : List Str :=
  (fs.entries.filter (fun e =>
    isPre (toStr "blender-" ++ version) e.name && e.isDir)).map (·.name)

/-- First-occurrence deduplication, as produced by keyed insertion into a
Python dict iterated in insertion order. -/
def firstOccur (l : List Str) : List Str :=
  l.foldl (fun acc v => if acc.contains v then acc else acc ++ [v]) []

/-- The `versions_to_remove` dict: each distinct version of the batch that
has at least one pre-existing `blender-{version}*` directory, with those
directories. -/
def versionsToRemoveOf (env : DlEnv) (builds : List BlenderBuild) :
    List (Str × List Str) :=
  ((firstOccur (builds.map (·.version))).map
    (fun v => (v, existingDirsFor env.fs v))).filter (fun p => !p.2.isEmpty)

/-- `all_existing_builds`: every pre-existing directory gathered across the
batch. -/
def allExistingOf (env : DlEnv) (builds : List BlenderBuild) : List Str :=
  ((versionsToRemoveOf env builds).map (·.2)).flatten

/-- Per-build fetch outcome as read back by the results loop: a log path
was provided, the log file exists after the join, and
`_check_download_success` accepts its content. -/
def fetchOk (env : DlEnv) (b : BlenderBuild) : Bool :=
  match env.logPathOf b.version with
  | none => false
  | some p => env.logExists p && checkDownloadSuccess (env.logContent p)

/-- Per-build extraction outcome: `tar` succeeded and the expected output
directory exists and is a directory. -/
def extractPhaseOk (env : DlEnv) (b : BlenderBuild) : Bool :=
  env.tarOk b.version && env.extractDirOk b.version

/-- A build's whole pipeline succeeded: fetch, extraction, and
verification (the point at which the code appends to
`completed_versions`). -/
def taskSucceeds (env : DlEnv) (b : BlenderBuild) : Bool :=
  fetchOk env b && extractPhaseOk env b

/-- `download_multiple_builds`.  Control flow, in source order: delete
leftover archives; gather pre-existing directories and ask one batch
confirmation (declining returns `False`); run one fetch thread per build
(skipping builds with no provided log path) and join them all; collect the
builds whose fetch succeeded; if any fetch succeeded and removal was
approved, remove the pre-existing directories of **every** version in
`versions_to_remove`, swallowing removal errors; extract each successful
download, and on verified extraction attempt the sidecar write (which
writes nothing — see `createVersionInfo`) and record the version completed;
return whether any version completed. -/
def downloadMultipleBuilds (env : DlEnv) (builds : List BlenderBuild) :
    DlResult :=
  let removedArchives :=
    (builds.map (·.file_name)).filter
      (fun n => env.fs.entries.any (fun e => e.name == n))
  let versionsToRemove := versionsToRemoveOf env builds
  let allExisting := allExistingOf env builds
  if !allExisting.isEmpty && !env.confirmAnswer then
    ⟨false, [], [], removedArchives, []⟩
  else
    let shouldRemove := !allExisting.isEmpty
    let successfulDownloads := builds.filter (fetchOk env)
    let removedDirs :=
      if !successfulDownloads.isEmpty && shouldRemove then
        ((versionsToRemove.map (·.2)).flatten).filter (fun d => !env.removeFails d)
      else []
    let extracted := successfulDownloads.filter (extractPhaseOk env)
    let sidecars := extracted.filterMap (fun b =>
      (createVersionInfo b
        ⟨env.extractDirOk b.version, env.hasExe b.version, env.sizeCalc b.version⟩
        env.now).map (fun sc => (b.version, sc)))
    let completed := extracted.map (·.version)
    ⟨!completed.isEmpty, completed, removedDirs, removedArchives, sidecars⟩

/-! ## `ui/tui.py` — reconciliation and the sort engine

`_get_combined_build_list` builds a dict keyed by version (locals first,
then remote versions not already present), sorts its values with the key
selected by `state.sort_column` from `_SORT_KEYS`, and returns
`(type, version)` pairs.  Python dict insertion order is modelled by an
ordered list.  `_parse_time_to_datetime` (column 7 only) is calendar
parsing; it never raises, and its output is used only through the total
order on `datetime`, so it is kept abstract as a parameter
`parseTime : PyTime → Int`. -/

/-- The heterogeneous `"time"` value of a unified record: a string for
local records (`local_info.time or ""`), `file_mtime or ""` for online
records (an `int`, or `""` when the mtime is the falsy `0`). -/
inductive PyTime where
  | str (s : Str)
  | int (n : Int)
  deriving DecidableEq, Repr

/-- The unified record dict built by `_get_combined_build_list`; field
names follow its keys (`rtype`/`rhash`/`rtime` stand for `"type"`,
`"hash"`, `"time"`). -/
structure URecord where
  rtype : Str
  version : Str
  branch : Option Str
  risk_id : Option Str
  rhash : Str
  size_mb : Rat
  rtime : PyTime
  deriving DecidableEq, Repr

/-- The record inserted for a local build.  `getattr(local_info, "hash",
"") or ""` is `""`, since `LocalBuildInfo` has no `hash` attribute. -/
def localRecord (v : Str) (info : LocalBuildInfo) : URecord :=
  { rtype := toStr "local"
    version := v
    branch := info.branch
    risk_id := info.risk_id
    rhash := []
    size_mb := (info.size_mb).getD 0
    rtime := .str (info.time.getD []) }

/-- The record inserted for an online build, given the value `h` that
`build.hash or ""` would have produced (its evaluation raises first; see
`BlenderBuild.getHash`). -/
def onlineRecord (b : BlenderBuild) (h : Str) : URecord :=
  { rtype := toStr "online"
    version := b.version
    branch := some b.branch
    risk_id := some b.risk_id
    rhash := h
    size_mb := b.size_mb
    rtime := if b.file_mtime ≠ 0 then .int b.file_mtime else .str [] }

/-- Second phase of the dict construction: append one record per online
build whose version is not already a key.  Building that record evaluates
`build.hash`, which raises. -/
def addOnline (recs : List URecord) : List BlenderBuild → Except PyErr (List URecord)
  | [] => .ok recs
  | b :: bs =>
    if recs.any (fun r => r.version == b.version) then addOnline recs bs
    else
      match b.getHash with
      | .error e => .error e
      | .ok h => addOnline (recs ++ [onlineRecord b h]) bs

/-- `_SORT_KEYS[1]` on a version string:
`tuple(map(int, version.split(".")))`; `none` models the `ValueError` of a
non-numeric segment. -/
def versionTupleKey (v : Str) : Option (List Int) :=
  (splitOnChar '.' v).mapM pyIntOfStr

/-- Python `tuple < tuple` on integer tuples: element-wise, a strict prefix
is smaller; never raises for ragged lengths. -/
def listIntLt : List Int → List Int → Bool
  | [], [] => false
  | [], _ :: _ => true
  | _ :: _, [] => false
  | a :: as, b :: bs => if a < b then true else if b < a then false else listIntLt as bs

/-- Python `(nat, str) < (nat, str)` lexicographic comparison. -/
def natStrPairLt (a b : Nat × Str) : Bool :=
  if a.1 < b.1 then true else if b.1 < a.1 then false else strLt a.2 b.2

/-- The single comparison `list.sort(key=key, reverse=reverse)` performs
between two decorated elements, as the `should come no later` relation of a
stable sort: ascending `k a ≤ k b` is `¬(k b < k a)`; `reverse=True`
reverses the comparison while preserving stability. -/
def pyKeyLe {κ : Type} (lt : κ → κ → Bool) (reverse : Bool) (ka kb : κ) : Bool :=
  if reverse then !lt ka kb else !lt kb ka

/-- `list.sort(key=key, reverse=reverse)` over unified records: compute all
keys first (raising `ValueError` if any key computation fails, with the
list unchanged — exactly CPython's decorate-first behaviour), then
stable-sort.  `List.insertionSort` inserts a new element before the first
existing one it may precede, and processes the list right to left, which is
stable for the total preorder `pyKeyLe`. -/
def pySortRecords {κ : Type} (key : URecord → Option κ) (lt : κ → κ → Bool)
    (dflt : κ) (reverse : Bool) (recs : List URecord) :
    Except PyErr (List URecord) :=
  if recs.all (fun r => (key r).isSome) then
    .ok (List.insertionSort
      (fun a b => pyKeyLe lt reverse ((key a).getD dflt) ((key b).getD dflt) = true)
      recs)
  else .error .valueError

/-- `_RISK_ORDER.get(risk_id, 99)` with `risk_id` possibly `None`. -/
def riskOrder : Option Str → Nat
  | none => 99
  | some s =>
    if s == toStr "stable" then 0
    else if s == toStr "candidate" then 1
    else if s == toStr "alpha" then 2
    else 99

/-- The sort dispatch `self.SORT_KEYS.get(column, self.SORT_KEYS.get(1))`:
columns 2–7 as defined in `_SORT_KEYS`, any other column (including 1)
resolving to the version key. -/
def sortUnified (parseTime : PyTime → Int) (column : Nat) (reverse : Bool)
    (recs : List URecord) : Except PyErr (List URecord) :=
  match column with
  | 2 => pySortRecords
      (fun r => some ((if r.rtype == toStr "local" then 0 else 1), r.version))
      natStrPairLt (0, []) reverse recs
  | 3 => pySortRecords (fun r => some (toLowerStr (r.branch.getD [])))
      strLt [] reverse recs
  | 4 => pySortRecords (fun r => some (riskOrder r.risk_id, r.risk_id.getD []))
      natStrPairLt (0, []) reverse recs
  | 5 => pySortRecords (fun r => some r.rhash) strLt [] reverse recs
  | 6 => pySortRecords (fun r => some r.size_mb) (fun a b => decide (a < b))
      0 reverse recs
  | 7 => pySortRecords (fun r => some (parseTime r.rtime))
      (fun a b => decide (a < b)) 0 reverse recs
  | _ => pySortRecords (fun r => versionTupleKey r.version) listIntLt [] reverse recs

/-- The UI state fields `_get_combined_build_list` and
`_has_update_available` read. -/
structure UIStateM where
  local_builds : List (Str × LocalBuildInfo)
  builds : List BlenderBuild
  has_fetched : Bool
  sort_column : Nat
  sort_reverse : Bool

/-- `_get_combined_build_list`: locals first, then unseen online versions
(evaluating `build.hash` — see `addOnline`), then the configured sort;
returns `(type, version)` pairs. -/
def combinedBuildList (parseTime : PyTime → Int) (st : UIStateM) :
    Except PyErr (List (Str × Str)) :=
  let locals := st.local_builds.map (fun p => localRecord p.1 p.2)
  match (if st.has_fetched && !st.builds.isEmpty
         then addOnline locals st.builds else .ok locals) with
  | .error e => .error e
  | .ok recs =>
    match sortUnified parseTime st.sort_column st.sort_reverse recs with
    | .error e => .error e
    | .ok sorted => .ok (sorted.map (fun r => (r.rtype, r.version)))

/-- Dict lookup `state.local_builds[version]` /
`version in state.local_builds`. -/
def lookupLocal (l : List (Str × LocalBuildInfo)) (k : Str) :
    Option LocalBuildInfo :=
  (l.find? (fun p => p.1 == k)).map (·.2)

/-- `_has_update_available`: requires a fetched state and a local build for
the version; scans `state.builds` for the first build of that version and
compares time tokens — both must be truthy (non-`None`, non-empty) and
different. -/
def hasUpdateAvailable (st : UIStateM) (version : Str) : Bool :=
  if !st.has_fetched then false
  else
    match lookupLocal st.local_builds version with
    | none => false
    | some lb =>
      match st.builds.find? (fun b => b.version == version) with
      | none => false
      | some b =>
        match lb.time with
        | none => false
        | some t => !t.isEmpty && !b.build_time.isEmpty && !(t == b.build_time)


/-! ## Concrete fixtures used by the evaluation theorems and witnesses -/

/-- A local 4.1 build with a truthy time token. -/
def info41 : LocalBuildInfo :=
  ⟨toStr "4.1", some (toStr "20240101_0000"), none, none, none, none, some 1048576⟩

/-- A remote 4.1 build whose time token differs from `info41`'s. -/
def bld41 : BlenderBuild :=
  ⟨toStr "4.1", toStr "stable", toStr "stable", 100, 1706745600,
   toStr "blender-4.1-stable-linux.x86_64.tar.xz", toStr "u", toStr "linux",
   toStr "x86_64", toStr "20240201_0000", toStr "2024-02-01 00:00"⟩

/-- A remote 4.2 build, not present locally. -/
def bld42 : BlenderBuild :=
  ⟨toStr "4.2", toStr "stable", toStr "stable", 100, 1710000000,
   toStr "blender-4.2-stable-linux.x86_64.tar.xz", toStr "u", toStr "linux",
   toStr "x86_64", toStr "20240309_1200", toStr "2024-03-09 12:00"⟩

/-- Batch environment: pre-existing directories for both 4.1 and 4.2, user
approves removal, 4.1's fetch log shows an error, 4.2's shows completion,
extraction succeeds. -/
def envBatch : DlEnv where
  fs := ⟨true, [⟨toStr "blender-4.1-oldinstall", true, none, none⟩,
                ⟨toStr "blender-4.2-oldinstall", true, none, none⟩]⟩
  confirmAnswer := true
  logPathOf := fun v =>
    if v == toStr "4.1" then some (toStr "/tmp/a.log")
    else if v == toStr "4.2" then some (toStr "/tmp/b.log") else none
  logExists := fun _ => true
  logContent := fun p =>
    if p == toStr "/tmp/a.log" then toStr "ERROR" else toStr "saved 100%"
  tarOk := fun _ => true
  extractDirOk := fun _ => true
  removeFails := fun _ => false
  hasExe := fun _ => true
  sizeCalc := fun _ => some 1
  now := []

/-- Like `envBatch`, but removing 4.2's pre-existing directory fails. -/
def envBatchRmFail : DlEnv :=
  { envBatch with removeFails := fun d => d == toStr "blender-4.2-oldinstall" }

/-- Batch environment with an empty download directory (no pre-existing
builds, so no confirmation prompt is raised). -/
def envClean : DlEnv :=
  { envBatch with fs := ⟨true, []⟩ }

/-- A unified record carrying only a version, as far as version sorting is
concerned. -/
def vRec (v : String) : URecord :=
  ⟨toStr "online", toStr v, none, none, [], 0, .str []⟩

/-- Modelled from the spec: the comparison the claim attributes to the sort
key — "as if missing trailing segments were padded with 0", i.e. compare
after right-padding both tuples with zeros to a common length.  Defined
only to be compared against the code's `listIntLt`. -/
def paddedListIntLt (a b : List Int) : Bool :=
  listIntLt (a ++ List.replicate (b.length - a.length) 0)
    (b ++ List.replicate (a.length - b.length) 0)

/-- A fetched UI state: local 4.1 (token `20240101_0000`), remote 4.1
(token `20240201_0000`). -/
def stFetch41 : UIStateM :=
  ⟨[(toStr "4.1", info41)], [bld41], true, 1, true⟩

/-- The reconciliation state of the claim's own example: local `{"4.1"}`,
remote `["4.1", "4.2"]`, fetched, default sort (version, descending). -/
def stC1 : UIStateM :=
  ⟨[(toStr "4.1", info41)], [bld41, bld42], true, 1, true⟩

/-- A download directory holding one ordinary installed build (no
`version.json`). -/
def fsScan : DownloadFs :=
  ⟨true, [⟨toStr "blender-4.1-stable-linux.x86_64", true, none, some 0⟩]⟩

/-- A download-directory entry whose `version.json` parsed as valid JSON
with a truthy version. -/
def entScanJson : BuildDirEnt :=
  ⟨toStr "blender-4.1-stable-linux.x86_64", true,
   some (.valid ⟨some (toStr "4.1"), some (toStr "20240101_0000"),
     some (toStr "stable"), some (toStr "stable"),
     some (toStr "2024-01-01 00:00"), some 1704067200, none, some 1048576,
     some (toStr "abc123")⟩),
   some 1048576⟩

/-- A download directory containing an installed 4.10 build. -/
def fs410 : DownloadFs :=
  ⟨true, [⟨toStr "blender-4.10-stable-linux.x86_64", true, none, some 0⟩]⟩

/-- A download directory with entries matching no queried version. -/
def fsOther : DownloadFs :=
  ⟨true, [⟨toStr "blender-3.6-stable-linux.x86_64", true, none, some 0⟩,
          ⟨toStr "notes.txt", false, none, none⟩]⟩

/-! # Theorems -/

/-- Claim C1 (failing evaluation): on the claim's own example — local
builds `{"4.1"}` and remote builds `["4.1", "4.2"]` — reconciliation does
not return a two-record list: constructing the online record for the
remote-only version `"4.2"` evaluates `build.hash`, and `BlenderBuild` has
no `hash` attribute, so `_get_combined_build_list` raises
`AttributeError` instead of returning any list (for every time-parsing
behaviour). -/
theorem combinedBuildList_raises_on_remote_only_version :
    ∀ parseTime : PyTime → Int,
      combinedBuildList parseTime stC1 = .error (.attributeError (toStr "hash")) :=
  fun _ => rfl

/-- Claim C4 (failing evaluation): scanning a download directory that
contains a single well-formed build directory does not return a mapping —
both metadata paths of `_extract_build_info_from_directory` construct
`LocalBuildInfo` with a `hash=` keyword that is not a declared field, so
the scan raises `TypeError` (uncaught by the `except` clause, which lists
only `JSONDecodeError`, `IOError`, `KeyError`), aborting the whole scan on
the first candidate directory; the same error hits a directory whose
`version.json` is valid. -/
theorem getLocalBuilds_raises_typeError :
    ∀ fmt : Int → Str,
      getLocalBuilds fmt fsScan = .error (.typeError (toStr "hash")) ∧
      extractBuildInfo fmt entScanJson = .error (.typeError (toStr "hash")) :=
  fun _ => ⟨rfl, rfl⟩

/-- Claim C5 (failing evaluation): the sidecar round-trip fails at its
first step — for a well-formed `BlenderBuild` and a verified extracted
directory (directory present, `blender` executable present, size
computation fine), `_create_version_info` evaluates `build.hash`
(`AttributeError`, swallowed by its `except Exception`) and writes no
sidecar at all; re-scanning the sidecar-less directory then raises
`TypeError` (see C4) instead of reconstructing a `LocalBuild`. -/
theorem createVersionInfo_writes_no_sidecar :
    ∀ (now : Str) (fmt : Int → Str),
      createVersionInfo bld42 ⟨true, true, some 5000⟩ now = none ∧
      extractBuildInfo fmt
        ⟨toStr "blender-4.2-stable-linux.x86_64", true, none, some 5000⟩ =
        .error (.typeError (toStr "hash")) :=
  fun _ _ => ⟨rfl, rfl⟩

/-- Claim C6 (counterexample): the published progress is not clamped to the
maximum seen so far.  Polling a log that ends with `50%`, then polling the
same log grown append-only (the first content is a prefix of the second)
whose appended line ends with a stale `10%`, publishes 50 and then 10 — a
strictly smaller report than the maximum previously reported. -/
theorem pollStep_report_decreases_on_stale_append :
    isPre (toStr "x 50% y") (toStr "x 50% y\n 10% z") = true ∧
    (pollStep watchInit (some (toStr "x 50% y"))).published = some 50 ∧
    (pollStep (pollStep watchInit (some (toStr "x 50% y")))
        (some (toStr "x 50% y\n 10% z"))).published = some 10 ∧
    ¬(50 ≤ 10) := by decide

/-- Claim C6 (amended): a watcher poll of a not-yet-completed task
publishes exactly the **last** percentage appearing in the log at poll
time, with no clamping (so a report drops whenever the appended content
ends in a smaller percentage, and is non-decreasing exactly when the
successive last-percentages are); the task is marked completed when that
value reaches 100, and once completed the published value never changes. -/
theorem pollStep_publishes_last_percent :
    (∀ (s : WatchState) (c : Str) (p : Nat),
        s.completed = false → (percentMatches c).getLast? = some p →
        pollStep s (some c) = ⟨some p, decide (100 ≤ p)⟩)
    ∧ (∀ (s : WatchState) (log : Option Str),
        s.completed = true → pollStep s log = s) := by
  constructor
  · intro s c p h1 h2
    simp [pollStep, progressFromLog, h1, h2]
  · intro s log h
    simp [pollStep, h]

/-- Claim C6 (witness for the amended theorem). -/
theorem pollStep_publishes_last_percent_witness :
    pollStep ⟨none, false⟩ (some (toStr "50%")) = ⟨some 50, false⟩ ∧
    pollStep ⟨some 100, true⟩ (some (toStr "10%")) = ⟨some 100, true⟩ :=
  ⟨(pollStep_publishes_last_percent.1 ⟨none, false⟩ (toStr "50%") 50 rfl
      (by decide)).trans (by decide),
   pollStep_publishes_last_percent.2 ⟨some 100, true⟩ (some (toStr "10%")) rfl⟩

/-- Claim C10: the shared directory-matching rule of `delete_local_build`
and `_find_build_directory` accepts any directory whose name has
`"blender-" + version` as a string prefix, so querying version `"4.1"`
matches the installed directory of the distinct version `"4.10"`:
`_find_build_directory "4.1"` resolves to the 4.10 directory, and
`delete_local_build "4.1"` removes it. -/
theorem versionRule_cross_matches_and_deletes :
    matchesVersionDir (toStr "blender-4.10-stable-linux.x86_64") (toStr "4.1") = true ∧
    dirVersionComponent (toStr "blender-4.10-stable-linux.x86_64") = toStr "4.10" ∧
    toStr "4.1" ≠ toStr "4.10" ∧
    findBuildDirectory fs410 (toStr "4.1") =
      some ⟨toStr "blender-4.10-stable-linux.x86_64", true, none, some 0⟩ ∧
    (deleteLocalBuild fs410 (fun _ => false) (toStr "4.1")).1 = true ∧
    (deleteLocalBuild fs410 (fun _ => false) (toStr "4.1")).2.entries = [] := by
  decide

/-- Claim C3 (failing evaluation): in a batch where 4.1's fetch failed and
4.2's succeeded (both with approved pre-existing directories),
`download_multiple_builds` removes 4.1's pre-existing directory even
though 4.1's own fetch failed; and when removing a directory fails, that
version's pipeline is **not** aborted — its extraction still completes
(and no version ever gets a metadata sidecar). -/
theorem downloadMultipleBuilds_removes_failed_versions_dir :
    fetchOk envBatch bld41 = false ∧
    toStr "blender-4.1-oldinstall" ∈
      (downloadMultipleBuilds envBatch [bld41, bld42]).removedDirs ∧
    (downloadMultipleBuilds envBatch [bld41, bld42]).ret = true ∧
    (downloadMultipleBuilds envBatch [bld41, bld42]).sidecars = [] ∧
    (downloadMultipleBuilds envBatchRmFail [bld42]).removedDirs = [] ∧
    (downloadMultipleBuilds envBatchRmFail [bld42]).completed = [toStr "4.2"] := by
  decide

/-- Helper: a list's `isEmpty` is `false` exactly when it is nonempty. -/
theorem isEmpty_false_iff {α : Type} (l : List α) : l.isEmpty = false ↔ l ≠ [] := by
  cases l <;> simp

/-- Claim C9: `delete_local_build version` returns `False` exactly when no
directory matched the version rule or when removal of at least one matched
directory failed with a permission/OS error; and with no match the
directory state is left untouched. -/
theorem deleteLocalBuild_false_iff (fs : DownloadFs) (removeFails : Str → Bool)
    (version : Str) :
    ((deleteLocalBuild fs removeFails version).1 = false ↔
      matchedBuildDirs fs version = [] ∨
        ∃ e ∈ matchedBuildDirs fs version, removeFails e.name = true)
    ∧ (matchedBuildDirs fs version = [] →
        (deleteLocalBuild fs removeFails version).2 = fs) := by
  cases hr : fs.rootExists with
  | false => simp [deleteLocalBuild, matchedBuildDirs, hr]
  | true =>
    simp only [deleteLocalBuild, matchedBuildDirs, hr, Bool.not_true,
      Bool.false_eq_true, if_false, if_true]
    by_cases hl : fs.entries.filter (matchesDelete version) = []
    · simp [hl]
    · rw [if_neg (by simpa [List.isEmpty_iff] using hl)]
      constructor
      · simp only [hl, false_or]
        simp [List.all_eq_true]
        tauto
      · intro h; exact absurd h hl

/-- Claim C9 (witness): deleting version 4.1 from a directory holding only
a 3.6 build and a stray file matches nothing and mutates nothing. -/
theorem deleteLocalBuild_false_iff_witness :
    (deleteLocalBuild fsOther (fun _ => false) (toStr "4.1")).2 = fsOther :=
  (deleteLocalBuild_false_iff fsOther (fun _ => false) (toStr "4.1")).2 (by decide)

/-- Claim C7: in a fetched state whose remote builds have pairwise-distinct
versions, `_has_update_available version` returns `True` exactly when the
version has a local build, a remote build of the same version exists, and
the two time tokens are both non-empty (local token also not absent) and
differ. -/
theorem hasUpdateAvailable_iff (st : UIStateM) (version : Str)
    (hf : st.has_fetched = true)
    (hnd : (st.builds.map (fun b => b.version)).Nodup) :
    hasUpdateAvailable st version = true ↔
      ∃ lb, lookupLocal st.local_builds version = some lb ∧
        ∃ b ∈ st.builds, b.version = version ∧
          ∃ t, lb.time = some t ∧ t ≠ [] ∧ b.build_time ≠ [] ∧ t ≠ b.build_time := by
  have hinj := List.inj_on_of_nodup_map hnd
  unfold hasUpdateAvailable
  rw [hf]
  simp only [Bool.not_true, Bool.false_eq_true, if_false]
  cases hlb : lookupLocal st.local_builds version with
  | none => simp
  | some lb =>
    simp only [Option.some.injEq]
    constructor
    · intro h
      cases hfind : st.builds.find? (fun b => b.version == version) with
      | none => rw [hfind] at h; cases h
      | some b =>
        rw [hfind] at h
        have hmem := List.mem_of_find?_eq_some hfind
        have hpb := List.find?_some hfind
        cases ht : lb.time with
        | none => rw [ht] at h; cases h
        | some t =>
          rw [ht] at h
          simp only [Bool.and_eq_true, Bool.not_eq_true'] at h
          refine ⟨lb, rfl, b, hmem, by simpa using hpb, t, ht,
            (isEmpty_false_iff t).mp h.1.1, (isEmpty_false_iff _).mp h.1.2, ?_⟩
          simpa using h.2
    · rintro ⟨lb', hlb', b, hbmem, hbv, t, ht, ht1, ht2, ht3⟩
      cases hlb'
      cases hfind : st.builds.find? (fun x => x.version == version) with
      | none =>
        have := List.find?_eq_none.mp hfind b hbmem
        simp [hbv] at this
      | some b' =>
        have hmem' := List.mem_of_find?_eq_some hfind
        have hpb' := List.find?_some hfind
        have hbb : b' = b := by
          apply hinj hmem' hbmem
          simpa [hbv] using hpb'
        subst hbb
        rw [ht]
        simp only [Bool.and_eq_true, Bool.not_eq_true']
        exact ⟨⟨(isEmpty_false_iff t).mpr ht1, (isEmpty_false_iff _).mpr ht2⟩,
          by simpa using ht3⟩

/-- Claim C7 (witness): local 4.1 with token `20240101_0000` and remote 4.1
with token `20240201_0000` — flagged. -/
theorem hasUpdateAvailable_iff_witness :
    ∃ lb, lookupLocal stFetch41.local_builds (toStr "4.1") = some lb ∧
      ∃ b ∈ stFetch41.builds, b.version = toStr "4.1" ∧
        ∃ t, lb.time = some t ∧ t ≠ [] ∧ b.build_time ≠ [] ∧ t ≠ b.build_time :=
  (hasUpdateAvailable_iff stFetch41 (toStr "4.1") rfl (by decide)).1 (by decide)

/-- Helper: a task's pipeline outcome depends only on its version (all the
per-task oracles are keyed by version). -/
theorem taskSucceeds_congr (env : DlEnv) {b b' : BlenderBuild}
    (h : b.version = b'.version) : taskSucceeds env b = taskSucceeds env b' := by
  unfold taskSucceeds fetchOk extractPhaseOk
  rw [h]

/-- Claim C2: for any batch that passes (or needs no) removal confirmation,
`download_multiple_builds` returns `True` exactly when some task's whole
pipeline (fetch, extraction, verification) succeeded — so zero successful
fetches give `False`, and one full success gives `True` no matter how many
siblings failed; each version is recorded completed exactly when its own
pipeline succeeded; and a task's outcome depends only on its own log path,
log state/content, and extraction outcomes, never on a sibling's (failure
isolation). -/
theorem downloadMultipleBuilds_return_and_isolation
    (env : DlEnv) (builds : List BlenderBuild)
    (hconfirm : allExistingOf env builds = [] ∨ env.confirmAnswer = true) :
    ((downloadMultipleBuilds env builds).ret = true ↔
      ∃ b ∈ builds, taskSucceeds env b = true)
    ∧ (∀ b ∈ builds,
        b.version ∈ (downloadMultipleBuilds env builds).completed ↔
          taskSucceeds env b = true)
    ∧ (∀ (b : BlenderBuild) (env' : DlEnv),
        env.logPathOf b.version = env'.logPathOf b.version →
        (∀ p, env.logPathOf b.version = some p →
          env.logExists p = env'.logExists p ∧ env.logContent p = env'.logContent p) →
        env.tarOk b.version = env'.tarOk b.version →
        env.extractDirOk b.version = env'.extractDirOk b.version →
        taskSucceeds env b = taskSucceeds env' b) := by
  have hcond : (!(allExistingOf env builds).isEmpty && !env.confirmAnswer) = false := by
    rcases hconfirm with h | h
    · simp [h]
    · simp [h]
  unfold downloadMultipleBuilds
  simp only [hcond, Bool.false_eq_true, if_false]
  refine ⟨?_, ?_, ?_⟩
  · constructor
    · intro h
      rw [Bool.not_eq_true', isEmpty_false_iff] at h
      rcases List.exists_mem_of_ne_nil _ h with ⟨v, hv⟩
      rcases List.mem_map.mp hv with ⟨b, hb, _⟩
      rcases List.mem_filter.mp hb with ⟨hb1, hg⟩
      rcases List.mem_filter.mp hb1 with ⟨hmem, hf⟩
      exact ⟨b, hmem, by simp [taskSucceeds, hf, hg]⟩
    · rintro ⟨b, hb, hts⟩
      rw [Bool.not_eq_true', isEmpty_false_iff]
      intro hnil
      obtain ⟨hf, hg⟩ : fetchOk env b = true ∧ extractPhaseOk env b = true := by
        simpa [taskSucceeds] using hts
      have hmem : b.version ∈
          (((builds.filter (fetchOk env)).filter (extractPhaseOk env)).map
            (fun b => b.version)) :=
        List.mem_map.mpr ⟨b,
          List.mem_filter.mpr ⟨List.mem_filter.mpr ⟨hb, hf⟩, hg⟩, rfl⟩
      rw [hnil] at hmem
      cases hmem
  · intro b hb
    constructor
    · intro h
      rcases List.mem_map.mp h with ⟨b', hb', hv⟩
      rcases List.mem_filter.mp hb' with ⟨hb1, hg⟩
      rcases List.mem_filter.mp hb1 with ⟨_, hf⟩
      have : taskSucceeds env b' = true := by simp [taskSucceeds, hf, hg]
      rwa [taskSucceeds_congr env (show b.version = b'.version from hv.symm)]
    · intro h
      obtain ⟨hf, hg⟩ : fetchOk env b = true ∧ extractPhaseOk env b = true := by
        simpa [taskSucceeds] using h
      exact List.mem_map.mpr ⟨b,
        List.mem_filter.mpr ⟨List.mem_filter.mpr ⟨hb, hf⟩, hg⟩, rfl⟩
  · intro b env' h1 h2 h3 h4
    unfold taskSucceeds fetchOk extractPhaseOk
    rw [← h1, h3, h4]
    cases hp : env.logPathOf b.version with
    | none => rfl
    | some p =>
      rcases h2 p hp with ⟨he, hc⟩
      simp [he, hc]

/-- Claim C2 (witness): a clean-directory batch where 4.1's fetch fails and
4.2's pipeline succeeds returns `True`. -/
theorem downloadMultipleBuilds_return_and_isolation_witness :
    (downloadMultipleBuilds envClean [bld41, bld42]).ret = true :=
  (downloadMultipleBuilds_return_and_isolation envClean [bld41, bld42]
    (Or.inl (by decide))).1.2 ⟨bld42, by decide, by decide⟩

/-- Helper: the tuple comparison is asymmetric. -/
theorem listIntLt_asymm : ∀ a b, listIntLt a b = true → listIntLt b a = false := by
  intro a
  induction a with
  | nil =>
    intro b h
    cases b with
    | nil => simp [listIntLt] at h
    | cons y ys => simp [listIntLt]
  | cons x xs ih =>
    intro b h
    cases b with
    | nil => simp [listIntLt] at h
    | cons y ys =>
      by_cases h1 : x < y
      · have h2 : ¬ y < x := by omega
        simp [listIntLt, h1, h2]
      · by_cases h2 : y < x
        · simp [listIntLt, h1, h2] at h
        · have h3 : x = y := by omega
          subst h3
          simp only [listIntLt, if_neg h1, if_neg h2] at h ⊢
          exact ih ys h

/-- Helper: the tuple comparison is transitive. -/
theorem listIntLt_trans :
    ∀ a b c, listIntLt a b = true → listIntLt b c = true → listIntLt a c = true := by
  intro a
  induction a with
  | nil =>
    intro b c h1 h2
    cases b with
    | nil => simp [listIntLt] at h1
    | cons y ys =>
      cases c with
      | nil => simp [listIntLt] at h2
      | cons z zs => simp [listIntLt]
  | cons x xs ih =>
    intro b c h1 h2
    cases b with
    | nil => simp [listIntLt] at h1
    | cons y ys =>
      cases c with
      | nil => simp [listIntLt] at h2
      | cons z zs =>
        by_cases hxy : x < y
        · by_cases hyz : y < z
          · simp [listIntLt, show x < z by omega]
          · by_cases hzy : z < y
            · simp [listIntLt, hyz, hzy] at h2
            · have : y = z := by omega
              subst this
              simp [listIntLt, hxy]
        · by_cases hyx : y < x
          · simp [listIntLt, hxy, hyx] at h1
          · have hxeq : x = y := by omega
            subst hxeq
            simp only [listIntLt, if_neg hxy, if_neg hyx] at h1
            by_cases hyz : x < z
            · simp [listIntLt, hyz]
            · by_cases hzy : z < x
              · simp [listIntLt, hyz, hzy] at h2
              · simp only [listIntLt, if_neg hyz, if_neg hzy] at h2 ⊢
                exact ih ys zs h1 h2

/-- Helper: the tuple comparison is trichotomous. -/
theorem listIntLt_trichotomy :
    ∀ a b, listIntLt a b = true ∨ listIntLt b a = true ∨ a = b := by
  intro a
  induction a with
  | nil =>
    intro b
    cases b with
    | nil => right; right; rfl
    | cons y ys => left; simp [listIntLt]
  | cons x xs ih =>
    intro b
    cases b with
    | nil => right; left; simp [listIntLt]
    | cons y ys =>
      by_cases h1 : x < y
      · left; simp [listIntLt, h1]
      · by_cases h2 : y < x
        · right; left; simp [listIntLt, h1, h2]
        · have h3 : x = y := by omega
          subst h3
          rcases ih ys with h | h | h
          · left; simp [listIntLt, h1, h2, h]
          · right; left; simp [listIntLt, h1, h2, h]
          · right; right; rw [h]

/-- Claim C8 (counterexample): the version-key comparison does **not**
behave as zero-padding at ragged segment counts.  Ascending-sorting the
records `["4.1.0", "4.1"]` with the code's tuple comparison yields
`["4.1", "4.1.0"]` (a strict prefix sorts strictly first), while under the
claimed pad-with-0 comparison the keys tie and the stable sort would keep
the original order `["4.1.0", "4.1"]` — two different results. -/
theorem versionSort_not_padded :
    pySortRecords (fun r => versionTupleKey r.version) listIntLt [] false
      [vRec "4.1.0", vRec "4.1"] = .ok [vRec "4.1", vRec "4.1.0"] ∧
    pySortRecords (fun r => versionTupleKey r.version) paddedListIntLt [] false
      [vRec "4.1.0", vRec "4.1"] = .ok [vRec "4.1.0", vRec "4.1"] ∧
    ([vRec "4.1", vRec "4.1.0"] : List URecord) ≠ [vRec "4.1.0", vRec "4.1"] := by
  decide

/-- Claim C8 (amended): ascending version sorting is numeric
(`["2.9", "2.10", "2.2"]` sorts to `["2.2", "2.9", "2.10"]`), compares
dot-split integer tuples element-wise with Python tuple semantics — at
differing segment counts a version whose segments are a proper prefix of
another's sorts strictly before it (no zero padding) — and never raises on
any list whose versions all parse (ragged counts included): the sort
returns a permutation of the input sorted by the key order. -/
theorem versionSort_numeric_unpadded :
    (pySortRecords (fun r => versionTupleKey r.version) listIntLt [] false
        [vRec "2.9", vRec "2.10", vRec "2.2"] =
      .ok [vRec "2.2", vRec "2.9", vRec "2.10"])
    ∧ (pySortRecords (fun r => versionTupleKey r.version) listIntLt [] false
        [vRec "4.1.0", vRec "4.1"] = .ok [vRec "4.1", vRec "4.1.0"])
    ∧ (∀ recs : List URecord,
        recs.all (fun r => (versionTupleKey r.version).isSome) = true →
        ∃ l, pySortRecords (fun r => versionTupleKey r.version) listIntLt [] false
            recs = .ok l ∧
          List.Perm recs l ∧
          l.Sorted (fun a b =>
            pyKeyLe listIntLt false ((versionTupleKey a.version).getD [])
              ((versionTupleKey b.version).getD []) = true)) := by
  refine ⟨by decide, by decide, ?_⟩
  intro recs h
  haveI htot : IsTotal URecord (fun a b =>
      pyKeyLe listIntLt false ((versionTupleKey a.version).getD [])
        ((versionTupleKey b.version).getD []) = true) := by
    constructor
    intro a b
    by_cases hl : listIntLt ((versionTupleKey b.version).getD [])
        ((versionTupleKey a.version).getD []) = true
    · right
      have := listIntLt_asymm _ _ hl
      simp [pyKeyLe, this]
    · left
      simp [pyKeyLe, hl]
  haveI htr : IsTrans URecord (fun a b =>
      pyKeyLe listIntLt false ((versionTupleKey a.version).getD [])
        ((versionTupleKey b.version).getD []) = true) := by
    constructor
    intro a b c hab hbc
    simp only [pyKeyLe, if_neg (by decide : ¬ (false = true)), Bool.not_eq_true'] at hab hbc ⊢
    by_contra hlt
    rw [Bool.not_eq_false] at hlt
    rcases listIntLt_trichotomy ((versionTupleKey b.version).getD [])
        ((versionTupleKey a.version).getD []) with h1 | h1 | h1
    · rw [h1] at hab; cases hab
    · have := listIntLt_trans _ _ _ hlt h1
      rw [this] at hbc; cases hbc
    · rw [h1] at hbc
      rw [hlt] at hbc; cases hbc
  refine ⟨_, by simp [pySortRecords, h], (List.perm_insertionSort _ recs).symm,
    List.sorted_insertionSort _ recs⟩

/-- Claim C8 (witness for the amended theorem): instantiated on a singleton
list. -/
theorem versionSort_numeric_unpadded_witness :
    ∃ l, pySortRecords (fun r => versionTupleKey r.version) listIntLt [] false
        [vRec "3"] = .ok l ∧
      List.Perm [vRec "3"] l ∧
      l.Sorted (fun a b =>
        pyKeyLe listIntLt false ((versionTupleKey a.version).getD [])
          ((versionTupleKey b.version).getD []) = true) :=
  versionSort_numeric_unpadded.2.2 [vRec "3"] (by decide)
